import Mathlib

/-!
Verification of the pysapgui control-automation layer against its
specification.  The Python source under `src/pysapgui/` is shallowly
embedded below: COM controls become explicit Lean structures, generators
become lists, exceptions become `Except` values carrying the attribute
name used in the Python exception message, and attribute probing
(`hasattr`) becomes `Option` fields.
-/

namespace PySapGui

/-! ## Scrolling (`Element.scroll_to_relative_position`, element.py 359-400)

A control either exposes a `verticalScrollbar` sub-object (with
`position`, `minimum`, `maximum`) or it does not; `hasattr` probing is
an `Option` field.  The method both mutates the scrollbar position and
returns a boolean, so the embedding returns the updated control together
with the result; raising `SapAttributeNotFoundException(name)` is
`Except.error name`. -/

structure Scrollbar where
  position : Int
  minimum : Int
  maximum : Int
  deriving DecidableEq, Repr

structure ScrollCtrl where
  verticalScrollbar : Option Scrollbar
  deriving DecidableEq, Repr

inductive ScrollDir where
  | up
  | down
  deriving DecidableEq, Repr

/-- `Element.scroll_to_relative_position(direction, amount)`:
raises when no scrollbar exists; otherwise computes `current ± amount`,
returns `False` without mutating when the candidate crosses the bound in
that direction, else writes the new position and returns `True`. -/
def scroll_to_relative_position (c : ScrollCtrl) (d : ScrollDir) (amount : Int) :
    ScrollCtrl × Except String Bool :=
  match c.verticalScrollbar with
  | none => (c, Except.error "verticalScrollbar")
  | some sb =>
    match d with
    | ScrollDir.up =>
      let newPos := sb.position - amount
      if newPos < sb.minimum then (c, Except.ok false)
      else ({ verticalScrollbar := some { sb with position := newPos } }, Except.ok true)
    | ScrollDir.down =>
      let newPos := sb.position + amount
      if sb.maximum < newPos then (c, Except.ok false)
      else ({ verticalScrollbar := some { sb with position := newPos } }, Except.ok true)

/-! ## Selected/Checked handling (element.py 205-249)

A control may expose a boolean `Selected` attribute, a boolean `Checked`
attribute, both, or neither; each is an `Option Bool` field.  `select`
and `toggle_select` mutate the control and possibly raise, so they
return the updated control paired with `Option String`: `some attr`
means `SapAttributeNotFoundException(attr)` was raised after the state
update (Python's `raise` statement in these methods is NOT inside an
`else` branch, so it runs unconditionally). -/

structure SelCtrl where
  selected : Option Bool
  checked : Option Bool
  deriving DecidableEq, Repr

/-- `Element.is_selected()`: return `Selected` if present, else `Checked`
if present, else raise `SapAttributeNotFoundException("Selected/Checked")`. -/
def is_selected (c : SelCtrl) : Except String Bool :=
  match c.selected with
  | some b => Except.ok b
  | none =>
    match c.checked with
    | some b => Except.ok b
    | none => Except.error "Selected/Checked"

/-- `Element.select()`: sets `Selected = True` (or `Checked = True`) when
the attribute exists, and then — because the `raise` is unconditional in
the source — always raises `SapAttributeNotFoundException("Selected/Checked")`. -/
def select (c : SelCtrl) : SelCtrl × Option String :=
  let c' :=
    if c.selected.isSome then { c with selected := some true }
    else if c.checked.isSome then { c with checked := some true }
    else c
  (c', some "Selected/Checked")

/-- `Element.toggle_select()`: negates `Selected` (or `Checked`) when the
attribute exists, and then — the `raise` being unconditional in the
source — always raises `SapAttributeNotFoundException("Selected/Checked")`. -/
def toggle_select (c : SelCtrl) : SelCtrl × Option String :=
  let c' :=
    match c.selected with
    | some b => { c with selected := some (!b) }
    | none =>
      match c.checked with
      | some b => { c with checked := some (!b) }
      | none => c
  (c', some "Selected/Checked")

/-! ## Row/column extraction (element.py 277-319)

`get_column` prefers a native `Column` attribute and otherwise parses the
identifier suffix with the regex `[^/]\[(\d+)\s*,\s*\d+]+$` (capturing
the FIRST number); `get_row` prefers `Row` and uses
`[^/]\[\d+\s*,\s*(\d+)]+$` (capturing the SECOND number).  The suffix
parser below is the functional reading of those anchored regexes,
working from the right end of the string: one or more `]`, a digit run,
optional whitespace, a comma, optional whitespace, a digit run, a `[`,
and a preceding character other than `/`. -/

structure PosCtrl where
  columnAttr : Option Nat
  rowAttr : Option Nat
  id : String
  deriving DecidableEq, Repr

def digitsToNat (ds : List Char) : Nat :=
  ds.foldl (fun acc c => acc * 10 + (c.toNat - '0'.toNat)) 0

/-- Functional form of the suffix regexes shared by `get_column` and
`get_row`: on success returns `(first number, second number)` of the
trailing `[a,b]`-style suffix (the two regexes differ only in which
number they capture). -/
def parseRowColSuffix (s : String) : Option (Nat × Nat) :=
  let r := s.data.reverse
  let ks := r.takeWhile (fun c => c = ']')
  let r1 := r.dropWhile (fun c => c = ']')
  if ks.isEmpty then none else
  let d2 := r1.takeWhile Char.isDigit
  let r2 := r1.dropWhile Char.isDigit
  if d2.isEmpty then none else
  let r3 := r2.dropWhile Char.isWhitespace
  match r3 with
  | ',' :: r4 =>
    let r5 := r4.dropWhile Char.isWhitespace
    let d1 := r5.takeWhile Char.isDigit
    let r6 := r5.dropWhile Char.isDigit
    if d1.isEmpty then none else
    match r6 with
    | '[' :: c :: _ =>
      if c = '/' then none
      else some (digitsToNat d1.reverse, digitsToNat d2.reverse)
    | _ => none
  | _ => none

/-- `Element.get_column()`: native `Column` attribute when present, else
the FIRST number of the trailing `[a,b]` suffix, else
`SapAttributeNotFoundException("Column")`. -/
def get_column (c : PosCtrl) : Except String Nat :=
  match c.columnAttr with
  | some v => Except.ok v
  | none =>
    match parseRowColSuffix c.id with
    | some p => Except.ok p.1
    | none => Except.error "Column"

/-- `Element.get_row()`: native `Row` attribute when present, else the
SECOND number of the trailing `[a,b]` suffix, else
`SapAttributeNotFoundException("Row")`. -/
def get_row (c : PosCtrl) : Except String Nat :=
  match c.rowAttr with
  | some v => Except.ok v
  | none =>
    match parseRowColSuffix c.id with
    | some p => Except.ok p.2
    | none => Except.error "Row"

/-! ## Session acquisition (`Session.__get_session`, session.py 38-61)

A session object is reduced to its `Busy` flag plus a tag for
distinguishing sessions.  The raised `NoSapSessionException(session_id)`
is `Except.error` carrying the `Option Int` passed to the constructor. -/

structure SessObj where
  tag : Nat
  busy : Bool
  deriving DecidableEq, Repr

/-- `Session.__get_session(session_id)`: raises with no id when the
session list is empty; with a given id, range-checks it (`<0` or
`length <= id`), returns the session at that index when idle and raises
carrying the id when busy or out of range; with no id, returns the first
non-busy session in ascending index order, raising with no id when all
are busy. -/
def get_session (sessions : List SessObj) (session_id : Option Int) :
    Except (Option Int) SessObj :=
  if sessions.length = 0 then Except.error none
  else
    match session_id with
    | some sid =>
      if sid < 0 ∨ (sessions.length : Int) ≤ sid then Except.error (some sid)
      else
        match sessions[sid.toNat]? with
        | some s => if !s.busy then Except.ok s else Except.error (some sid)
        | none => Except.error (some sid)
    | none =>
      match sessions.find? (fun s => !s.busy) with
      | some s => Except.ok s
      | none => Except.error none

/-! ## Connection acquisition (`Connection.__get_connection`, connection.py 29-42)

The source guards with `if connection_id:` — Python truthiness, so index
`0` falls through to the latest-instance branch — and range-checks with
`connections_length < connection_id` (strict), so `connection_id` equal
to the count passes the check and the out-of-range `Item` access
surfaces as a COM-level error, modelled as `ConnErr.comError`. -/

structure ConnObj where
  tag : Nat
  deriving DecidableEq, Repr

inductive ConnErr where
  | noConnection (connection_id : Option Int)
  | comError
  deriving DecidableEq, Repr

/-- `connections.Item(idx)` for a zero-based index: a COM-level error,
distinct from `NoSapConnectionException`, when out of range. -/
def connections_item (connections : List ConnObj) (idx : Nat) :
    Except ConnErr ConnObj :=
  match connections[idx]? with
  | some c => Except.ok c
  | none => Except.error ConnErr.comError

/-- `Connection.__get_connection(connection_id)`: raises (no id) when no
instances exist; when `connection_id` is truthy — present AND nonzero,
since the source guards with `if connection_id:` — raises carrying the
id if `id < 0` or `count < id` (strict!), else returns `Item(id)` (an
out-of-range COM access when `id = count`); otherwise — including the
falsy index 0 — returns the latest instance `Item(count - 1)`. -/
def get_connection (connections : List ConnObj) (connection_id : Option Int) :
    Except ConnErr ConnObj :=
  if connections.length = 0 then Except.error (ConnErr.noConnection none)
  else
    match connection_id with
    | some i =>
      if i ≠ 0 then
        if i < 0 ∨ (connections.length : Int) < i then
          Except.error (ConnErr.noConnection (some i))
        else connections_item connections i.toNat
      else connections_item connections (connections.length - 1)
    | none => connections_item connections (connections.length - 1)

/-! ## Column title storage (element.py 107-131)

`__init__` assigns `self.__column_title` (mangled `_Element__column_title`);
`get_column_title` tests `self.__title` (mangled `_Element__title`), a
name no code path ever assigns.  Because `Element` defines `__getattr__`,
the failed instance lookup of `_Element__title` is forwarded to the
underlying COM object and, when that also lacks it, raises
`SapAttributeNotFoundException('_Element__title')`, which the
`check_element_attribute` wrapper re-raises unchanged.  `elemTitleAttr`
models what forwarding `_Element__title` to the COM object yields. -/

structure TitleCtrl where
  columnTitle : Option String
  elemTitleAttr : Option String
  deriving DecidableEq, Repr

/-- `Element.get_column_title()`: evaluating `self.__title` triggers
`__getattr__` forwarding (no code assigns `_Element__title`); if that
raises, the exception propagates; if it yields a falsy value the method
raises `SapAttributeNotFoundException("Title")`; otherwise it returns
`str(self.__column_title)` (Python's `str(None)` is `"None"`). -/
def get_column_title (c : TitleCtrl) : Except String String :=
  match c.elemTitleAttr with
  | none => Except.error "_Element__title"
  | some t =>
    if t = "" then Except.error "Title"
    else
      Except.ok (match c.columnTitle with
        | some s => s
        | none => "None")

/-- `Element.set_column_title(column_title)`: stores into
`self.__column_title` (mangled `_Element__column_title`) only. -/
def set_column_title (c : TitleCtrl) (column_title : String) : TitleCtrl :=
  { c with columnTitle := some column_title }

/-! ## Tree search (`search_path` / `search_element`, utils.py 9-85)

A COM control tree is a node carrying its `Id` string and its direct
`Children`.  The per-child test `re.search(pattern, child.Id, re.IGNORECASE)`
is abstracted as a `Matcher` — a boolean function of pattern and id —
since the structural claims about the search hold for every matcher.
The Python functions return a single control, a list, or `None`, with
Python truthiness deciding the branches, so the embedding uses `PyVal`
whose truthiness mirrors Python (`vnone` and `vlist []` are falsy). -/

inductive SapElem where
  | node (id : String) (children : List SapElem)

mutual

def SapElem.decEq : (a b : SapElem) → Decidable (a = b)
  | SapElem.node i cs, SapElem.node j ds =>
    match String.decEq i j with
    | isFalse h => isFalse (by intro he; injection he with h1 h2; exact h h1)
    | isTrue hi =>
      match SapElem.decEqList cs ds with
      | isTrue hc => isTrue (by rw [hi, hc])
      | isFalse h => isFalse (by intro he; injection he with h1 h2; exact h h2)

def SapElem.decEqList : (a b : List SapElem) → Decidable (a = b)
  | [], [] => isTrue rfl
  | [], _ :: _ => isFalse (by intro he; exact absurd he (by simp))
  | _ :: _, [] => isFalse (by intro he; exact absurd he (by simp))
  | a :: as, b :: bs =>
    match SapElem.decEq a b, SapElem.decEqList as bs with
    | isTrue h1, isTrue h2 => isTrue (by rw [h1, h2])
    | isFalse h1, _ => isFalse (by intro he; injection he with h3 h4; exact h1 h3)
    | isTrue _, isFalse h2 => isFalse (by intro he; injection he with h3 h4; exact h2 h4)

end

instance : DecidableEq SapElem := SapElem.decEq

def SapElem.id : SapElem → String
  | node i _ => i

def SapElem.children : SapElem → List SapElem
  | node _ cs => cs

abbrev Matcher := String → String → Bool

inductive PyVal where
  | vnone
  | velem (e : SapElem)
  | vlist (l : List SapElem)
  deriving DecidableEq

mutual

/-- `search_element(element, pattern, return_all)` (utils.py 46-85):
walks the direct children of `element` in order; a child whose id
matches is returned at once in first-match mode or accumulated in
all-matches mode; every child is also searched recursively, with
truthy recursive results returned at once (first-match) or extended
onto the accumulator (all-matches).  Returns `None` (first-match) or
the accumulated list (all-matches). -/
def search_element (m : Matcher) (pattern : String) (return_all : Bool) :
    SapElem → PyVal
  | SapElem.node _ cs => searchChildren m pattern return_all [] cs

/-- The `for child in children` loop of `search_element`, with the
running `found_elements` accumulator made explicit. -/
def searchChildren (m : Matcher) (pattern : String) (return_all : Bool)
    (acc : List SapElem) : List SapElem → PyVal
  | [] => if return_all then PyVal.vlist acc else PyVal.vnone
  | child :: rest =>
    if m pattern child.id && !return_all then PyVal.velem child
    else
      let acc1 := if m pattern child.id then acc ++ [child] else acc
      match search_element m pattern return_all child with
      | PyVal.vnone => searchChildren m pattern return_all acc1 rest
      | PyVal.velem e =>
        if return_all then searchChildren m pattern return_all (acc1 ++ [e]) rest
        else PyVal.velem e
      | PyVal.vlist [] => searchChildren m pattern return_all acc1 rest
      | PyVal.vlist (x :: xs) =>
        if return_all then searchChildren m pattern return_all (acc1 ++ x :: xs) rest
        else PyVal.velem x

end

/-- The bracket-escaping step of `search_path`
(`re.sub(r'(?<!\\)(\[)', r'\\[', part)`): prepend a backslash to every
`[` not already preceded by one; `prev` tracks the previous character of
the original segment. -/
def escapeBrackets (prev : Option Char) : List Char → List Char
  | [] => []
  | c :: rest =>
    if c = '[' && prev ≠ some '\\' then
      '\\' :: '[' :: escapeBrackets (some c) rest
    else
      c :: escapeBrackets (some c) rest

def escape_brackets (s : String) : String :=
  String.mk (escapeBrackets none s.data)

/-- One level of the `for i, part in enumerate(parts)` loop of
`search_path`: every control surviving the previous level is searched,
and truthy results are appended (single hit) or extended (list of hits)
onto `next_level`. -/
def level_step (m : Matcher) (pattern : String) (ra : Bool)
    (current : List SapElem) : List SapElem :=
  current.foldl
    (fun next e =>
      match search_element m pattern ra e with
      | PyVal.vnone => next
      | PyVal.velem x => next ++ [x]
      | PyVal.vlist l => next ++ l)
    []

/-- The level loop of `search_path`: each part is bracket-escaped, the
mode flag passed down is `(i == len(parts) - 1) and return_all`, and an
empty `next_level` aborts the whole search (`return []`, here `none`). -/
def search_levels (m : Matcher) (return_all : Bool) :
    List String → List SapElem → Option (List SapElem)
  | [], current => some current
  | part :: rest, current =>
    let next := level_step m (escape_brackets part) (rest.isEmpty && return_all) current
    if next.isEmpty then none
    else search_levels m return_all rest next

/-- Python's `re_path.split('/')` for a one-character separator: splits
at every separator occurrence, keeping empty segments, and yields `[""]`
on the empty string. -/
def pySplitAux (sep : Char) : List Char → List Char → List String
  | [], acc => [String.mk acc.reverse]
  | c :: rest, acc =>
    if c = sep then String.mk acc.reverse :: pySplitAux sep rest []
    else pySplitAux sep rest (c :: acc)

def pySplit (sep : Char) (s : String) : List String :=
  pySplitAux sep s.data []

/-- `search_path(base_element, re_path, return_all)` (utils.py 9-43):
splits the path on `/`, runs the level loop from `[base_element]`, and
finally returns `results[0]` when not `return_all` and the results are
nonempty, else the results list (the `element_wrapper` is the identity
here). -/
def search_path (m : Matcher) (base : SapElem) (re_path : String)
    (return_all : Bool) : PyVal :=
  match search_levels m return_all (pySplit '/' re_path) [base] with
  | none => PyVal.vlist []
  | some [] => PyVal.vlist []
  | some (x :: xs) =>
    if !return_all then PyVal.velem x
    else PyVal.vlist (x :: xs)

/-- The per-level candidate lists of `search_path`, computed without the
early exit: once a level is empty every later level is empty as well
(stepping from an empty `current` yields an empty `next`), so this
agrees with the source's levels wherever the source still runs. -/
def level_lists (m : Matcher) (return_all : Bool) :
    List String → List SapElem → List (List SapElem)
  | [], _ => []
  | part :: rest, current =>
    let next := level_step m (escape_brackets part) (rest.isEmpty && return_all) current
    next :: level_lists m return_all rest next

/-- Specification-side traversal: all matching proper descendants of an
element, in depth-first preorder (each child first, then its subtree). -/
def collectMatches (m : Matcher) (pattern : String) : SapElem → List SapElem
  | SapElem.node _ cs => collectList m pattern cs
where
  collectList (m : Matcher) (pattern : String) : List SapElem → List SapElem
  | [] => []
  | c :: rest =>
    (if m pattern c.id then [c] else []) ++ collectMatches m pattern c
      ++ collectList m pattern rest

/-- The Python `None`-or-first-hit view of a traversal-order hit list. -/
def headHit : List SapElem → PyVal
  | [] => PyVal.vnone
  | x :: _ => PyVal.velem x

mutual

theorem search_element_all (m : Matcher) (p : String) (e : SapElem) :
    search_element m p true e = PyVal.vlist (collectMatches m p e) := by
  cases e with
  | node i cs =>
    have h := searchChildren_all m p [] cs
    simpa [search_element, collectMatches] using h

theorem searchChildren_all (m : Matcher) (p : String) (acc : List SapElem)
    (cs : List SapElem) :
    searchChildren m p true acc cs
      = PyVal.vlist (acc ++ collectMatches.collectList m p cs) := by
  cases cs with
  | nil => simp [searchChildren, collectMatches.collectList]
  | cons c rest =>
    rw [searchChildren, search_element_all m p c, collectMatches.collectList]
    by_cases hm : m p c.id = true
    · cases hc : collectMatches m p c with
      | nil =>
        simp [hm, searchChildren_all m p (acc ++ [c]) rest]
      | cons x xs =>
        simp [hm, searchChildren_all m p (acc ++ c :: x :: xs) rest]
    · cases hc : collectMatches m p c with
      | nil =>
        simp [hm, searchChildren_all m p acc rest]
      | cons x xs =>
        simp [hm, searchChildren_all m p (acc ++ x :: xs) rest]

end

mutual

theorem search_element_first (m : Matcher) (p : String) (e : SapElem) :
    search_element m p false e = headHit (collectMatches m p e) := by
  cases e with
  | node i cs =>
    have h := searchChildren_first m p [] cs
    simpa [search_element, collectMatches] using h

theorem searchChildren_first (m : Matcher) (p : String) (acc : List SapElem)
    (cs : List SapElem) :
    searchChildren m p false acc cs
      = headHit (collectMatches.collectList m p cs) := by
  cases cs with
  | nil => simp [searchChildren, collectMatches.collectList, headHit]
  | cons c rest =>
    rw [searchChildren, collectMatches.collectList]
    by_cases hm : m p c.id = true
    · simp [hm, headHit]
    · rw [search_element_first m p c]
      cases hc : collectMatches m p c with
      | nil =>
        simp [hm, headHit, searchChildren_first m p acc rest]
      | cons x xs =>
        simp [hm, headHit, searchChildren_first m p (acc ++ x :: xs) rest]

end

theorem level_step_aux_all (m : Matcher) (p : String) :
    ∀ (C : List SapElem) (init : List SapElem),
    C.foldl (fun next e =>
      match search_element m p true e with
      | PyVal.vnone => next
      | PyVal.velem x => next ++ [x]
      | PyVal.vlist l => next ++ l) init
    = init ++ C.flatMap (collectMatches m p)
  | [], init => by simp
  | c :: rest, init => by
    rw [List.foldl_cons]
    rw [search_element_all m p c]
    rw [level_step_aux_all m p rest]
    simp

theorem level_step_all (m : Matcher) (p : String) (C : List SapElem) :
    level_step m p true C = C.flatMap (collectMatches m p) := by
  have h := level_step_aux_all m p C []
  simpa [level_step] using h

theorem level_step_aux_first (m : Matcher) (p : String) :
    ∀ (C : List SapElem) (init : List SapElem),
    C.foldl (fun next e =>
      match search_element m p false e with
      | PyVal.vnone => next
      | PyVal.velem x => next ++ [x]
      | PyVal.vlist l => next ++ l) init
    = init ++ C.filterMap (fun e => (collectMatches m p e).head?)
  | [], init => by simp
  | c :: rest, init => by
    rw [List.foldl_cons, search_element_first m p c]
    cases hc : collectMatches m p c with
    | nil =>
      rw [level_step_aux_first m p rest]
      simp [headHit, hc]
    | cons x xs =>
      rw [level_step_aux_first m p rest]
      simp [headHit, hc]

theorem level_step_first (m : Matcher) (p : String) (C : List SapElem) :
    level_step m p false C
      = C.filterMap (fun e => (collectMatches m p e).head?) := by
  have h := level_step_aux_first m p C []
  simpa [level_step] using h

theorem head_filterMap_flatMap (f : SapElem → List SapElem) :
    ∀ C : List SapElem,
    (C.filterMap (fun e => (f e).head?)).head? = (C.flatMap f).head?
  | [] => by simp
  | c :: rest => by
    cases hfc : f c with
    | nil => simp [hfc, head_filterMap_flatMap f rest]
    | cons x xs => simp [hfc]

theorem search_levels_append (m : Matcher) (ra : Bool) :
    ∀ (ps : List String) (p : String) (cur : List SapElem),
    search_levels m ra (ps ++ [p]) cur
      = match search_levels m false ps cur with
        | none => none
        | some C =>
          if (level_step m (escape_brackets p) ra C).isEmpty then none
          else some (level_step m (escape_brackets p) ra C)
  | [], p, cur => by
    simp [search_levels]
  | q :: qs, p, cur => by
    have hne : ((qs ++ [p]).isEmpty && ra) = false := by
      simp
    have hne2 : (qs.isEmpty && false) = false := by simp
    rw [List.cons_append, search_levels, hne]
    conv_rhs => rw [search_levels, hne2]
    by_cases h : (level_step m (escape_brackets q) false cur).isEmpty
    · simp [h]
    · simp only [h, if_false, Bool.false_eq_true]
      rw [search_levels_append m ra qs p]

theorem search_levels_none_iff (m : Matcher) (ra : Bool) :
    ∀ (parts : List String) (cur : List SapElem),
    search_levels m ra parts cur = none ↔ [] ∈ level_lists m ra parts cur
  | [], cur => by simp [search_levels, level_lists]
  | part :: rest, cur => by
    rw [search_levels, level_lists]
    by_cases h : (level_step m (escape_brackets part) (rest.isEmpty && ra) cur).isEmpty
    · have he : level_step m (escape_brackets part) (rest.isEmpty && ra) cur = [] := by
        simpa using h
      simp [h, he]
    · have he : level_step m (escape_brackets part) (rest.isEmpty && ra) cur ≠ [] := by
        simpa using h
      simp only [h, Bool.false_eq_true, if_false, List.mem_cons,
        search_levels_none_iff m ra rest]
      constructor
      · intro hx
        exact Or.inr hx
      · intro hx
        cases hx with
        | inl hx => exact absurd hx.symm he
        | inr hx => exact hx

theorem level_lists_length (m : Matcher) (ra : Bool) :
    ∀ (parts : List String) (cur : List SapElem),
    (level_lists m ra parts cur).length = parts.length
  | [], _ => rfl
  | part :: rest, cur => by
    rw [level_lists]
    simp [level_lists_length m ra rest]

/-- Case-sensitive exact-identifier matcher, a concrete `Matcher`
instance used for evaluating the search on example trees. -/
def exactMatcher : Matcher := fun p i => p == i

/-- Example control tree: a root with two children named `a`, the first
holding leaves `b` and `x`, the second holding a leaf `b`. -/
def wTree1 : SapElem :=
  SapElem.node "root"
    [SapElem.node "a" [SapElem.node "b" [], SapElem.node "x" []],
     SapElem.node "a" [SapElem.node "b" []]]

theorem wTree1_levels :
    level_lists exactMatcher false (pySplit '/' "a/zzz") [wTree1]
    = [[SapElem.node "a" [SapElem.node "b" [], SapElem.node "x" []]], []] := by
  simp [level_lists, level_step, search_element, searchChildren,
    escape_brackets, escapeBrackets, exactMatcher, wTree1, SapElem.id,
    pySplit, pySplitAux]

/-- Example control tree with two descendants named `b` below the single
child `a`, one a direct child and one nested under `c`. -/
def wTree2 : SapElem :=
  SapElem.node "root"
    [SapElem.node "a" [SapElem.node "b" [], SapElem.node "c" [SapElem.node "b" []]]]

theorem wTree2_pre :
    search_levels exactMatcher false ["a"] [wTree2]
      = some [SapElem.node "a"
          [SapElem.node "b" [], SapElem.node "c" [SapElem.node "b" []]]] := by
  simp [search_levels, level_step, search_element, searchChildren,
    escape_brackets, escapeBrackets, exactMatcher, wTree2, SapElem.id]

theorem wTree2_hits :
    ([SapElem.node "a" [SapElem.node "b" [], SapElem.node "c" [SapElem.node "b" []]]] :
        List SapElem).flatMap (collectMatches exactMatcher (escape_brackets "b"))
      = [SapElem.node "b" [], SapElem.node "b" []] := by
  simp [collectMatches, collectMatches.collectList, escape_brackets, escapeBrackets,
    exactMatcher, SapElem.id]

/-! ## Row iteration (element.py 25-66 and 439-541; item_element.py 126-144 and 179-201)

Generators become lists of rows, a row being a list of cell views.  Each
variant's underlying COM data is a structure of counts and lookup
functions; a lookup returning `none` models the attribute access that
raises (and is swallowed or skipped) in the Python source. -/

/-- Containment of one character list in another, at any position. -/
def charsContain (needle : List Char) : List Char → Bool
  | [] => needle.isEmpty
  | c :: rest => needle.isPrefixOf (c :: rest) || charsContain needle rest

/-- Python's `needle in haystack` substring test. -/
def strContains (haystack needle : String) : Bool :=
  charsContain needle.data haystack.data

/-- Python's `str.strip()`: drop leading and trailing whitespace. -/
def pyStrip (s : String) : String :=
  String.mk
    (((s.data.dropWhile Char.isWhitespace).reverse.dropWhile
        Char.isWhitespace).reverse)

/-- The cell-blankness test of the grid-view and tree-table variants:
`cell.get_text() is None or str(cell.get_text()).strip() == ""`. -/
def blankOpt : Option String → Bool
  | none => true
  | some s => pyStrip s = ""

/-- COM data consulted by `GridViewElement.each_row`: `RowCount`,
`ColumnCount`, `ColumnOrder.Item(col)` and `GetCellValue(row, colId)`. -/
structure GridData where
  rowCount : Nat
  columnCount : Nat
  columnOrder : Nat → String
  cellValue : Nat → String → Option String

/-- A grid-view cell view: `GridViewElement(parent, row, col)` with
`col` the column id taken from the grid's `ColumnOrder`. -/
structure GVCell where
  row : Nat
  col : String
  deriving DecidableEq, Repr

/-- The column count used by `GridViewElement.each_row`: the
caller-supplied limit replaces `ColumnCount` outright when given. -/
def grid_columns_count (g : GridData) : Option Nat → Nat
  | none => g.columnCount
  | some l => l

/-- The cell list of one grid-view row: one cell per column position,
honoring the grid's `ColumnOrder`. -/
def grid_row_cells (g : GridData) (columns_count row : Nat) : List GVCell :=
  (List.range columns_count).map (fun col => GVCell.mk row (g.columnOrder col))

/-- `GridViewElement.each_row(parent, column_limit, return_empty_rows)`
(item_element.py 126-144): iterates `range(RowCount)`, builds one cell
per column position honoring `ColumnOrder`, and when `return_empty_rows`
is false skips rows whose every cell text is `None` or whitespace-only. -/
def gridview_each_row (g : GridData) (column_limit : Option Nat)
    (return_empty_rows : Bool) : List (List GVCell) :=
  (List.range g.rowCount).filterMap (fun row =>
    let row_elements := grid_row_cells g (grid_columns_count g column_limit) row
    if !return_empty_rows
        && row_elements.all (fun cell => blankOpt (g.cellValue cell.row cell.col)) then
      none
    else some row_elements)

/-- COM data consulted by `TableTreeElement.each_row`:
`GetColumnNames()`, `GetAllNodeKeys()` and `GetItemText(key, name)`. -/
structure TreeData where
  columnNames : List String
  nodeKeys : List String
  itemText : String → String → Option String

/-- A tree-table cell view: `TableTreeElement(parent, row_key, col_name)`. -/
structure TTCell where
  row : String
  col : String
  deriving DecidableEq, Repr

/-- The column-name list used by `TableTreeElement.each_row`, truncated
to the caller-supplied limit when given. -/
def tree_column_names (t : TreeData) : Option Nat → List String
  | none => t.columnNames
  | some l => t.columnNames.take l

/-- The cell list of one tree-table row: the node key crossed with the
column names. -/
def tree_row_cells (column_names : List String) (key : String) : List TTCell :=
  column_names.map (fun cn => TTCell.mk key cn)

/-- `TableTreeElement.each_row(parent, column_limit, return_empty_rows)`
(item_element.py 179-201): crosses every node key with the (possibly
truncated) column-name list, and when `return_empty_rows` is false
skips rows whose every cell text is `None` or whitespace-only. -/
def tabletree_each_row (t : TreeData) (column_limit : Option Nat)
    (return_empty_rows : Bool) : List (List TTCell) :=
  t.nodeKeys.filterMap (fun key =>
    let row_elements := tree_row_cells (tree_column_names t column_limit) key
    if !return_empty_rows
        && row_elements.all (fun cell => blankOpt (t.itemText cell.row cell.col)) then
      none
    else some row_elements)

/-- COM data consulted by `Element.each_table_row`: `Rows.Count`,
`Columns.Count`, `Columns.elementAt(col).elementAt(row)` (a `none`
models the swallowed per-cell exception) and the best-effort
`Columns.elementAt(col).Title`. -/
structure TableData where
  rowsCount : Nat
  columnsCount : Nat
  cell : Nat → Nat → Option String
  columnTitleAt : Nat → Option String

/-- A plain-table cell: the `Element` wrapper built per `(row, column)`,
carrying its text and the best-effort column title tag. -/
structure TableCell where
  row : Nat
  col : Nat
  text : String
  title : Option String
  deriving DecidableEq, Repr

/-- The cell list built for one row of `Element.each_table_row`:
cells whose lookup raises are skipped (`except: continue`). -/
def table_row_cells (t : TableData) (columns_count : Nat) (row : Nat) :
    List TableCell :=
  (List.range columns_count).filterMap (fun col =>
    match t.cell col row with
    | none => none
    | some txt => some (TableCell.mk row col txt (t.columnTitleAt col)))

/-- The `for row in range(...)` loop of `Element.each_table_row`
(element.py 40-66), in source order: when `return_empty_rows` is false a
row whose every cell text equals `''` is skipped (`continue`); then an
empty cell list stops the whole iteration (`break`); otherwise the row
is yielded. -/
def table_rows_go (t : TableData) (columns_count : Nat)
    (return_empty_rows : Bool) : List Nat → List (List TableCell)
  | [] => []
  | row :: rest =>
    let row_elements := table_row_cells t columns_count row
    if !return_empty_rows && row_elements.all (fun c => c.text = "") then
      table_rows_go t columns_count return_empty_rows rest
    else if row_elements.isEmpty then []
    else row_elements :: table_rows_go t columns_count return_empty_rows rest

/-- The column count used by `Element.each_table_row`:
`min(Columns.Count, limit)` when a limit is given. -/
def table_columns_count (t : TableData) : Option Nat → Nat
  | none => t.columnsCount
  | some l => min t.columnsCount l

/-- `Element.each_table_row(parent, column_limit, return_empty_rows)`
(element.py 25-66). -/
def each_table_row (t : TableData) (column_limit : Option Nat)
    (return_empty_rows : Bool) : List (List TableCell) :=
  table_rows_go t (table_columns_count t column_limit) return_empty_rows
    (List.range t.rowsCount)

/-- A child control as seen by the fallback `Element.__rows_generator`:
its `row`, `column` and `text` attributes, each possibly missing. -/
structure ChildElem where
  row : Option Nat
  column : Option Nat
  text : Option String
  deriving DecidableEq, Repr

/-- Python truthiness of `getattr(element, "text", None)`. -/
def falsyText : Option String → Bool
  | none => true
  | some s => s = ""

/-- `Element.__rows_generator(column_limit, remove_empty_rows)`
(element.py 511-541): children lacking `row` or `column` are skipped, as
are those at or beyond the column limit; a row bucket exists for every
surviving child but only truthy-text children populate it; buckets are
emitted in ascending row order, each sorted by column and truncated to
the limit, and empty buckets are dropped when `remove_empty_rows`. -/
def rows_generator (children : List ChildElem) (column_limit : Option Nat)
    (remove_empty_rows : Bool) : List (List ChildElem) :=
  let valid := children.filter (fun e =>
    e.row.isSome && e.column.isSome
      && (match column_limit with
          | some l => decide (e.column.getD 0 < l)
          | none => true))
  let keys := ((valid.map (fun e => e.row.getD 0)).dedup).mergeSort (· ≤ ·)
  let rows := keys.map (fun r =>
    let cells := (valid.filter (fun e => e.row.getD 0 = r)).filter
      (fun e => !falsyText e.text)
    let sorted := cells.mergeSort (fun a b => a.column.getD 0 ≤ b.column.getD 0)
    match column_limit with
    | some l => sorted.take l
    | none => sorted)
  if remove_empty_rows then rows.filter (fun r => !r.isEmpty) else rows

/-- The surviving children of `__rows_generator`: both `row` and
`column` attributes readable and the column below the limit (the same
filter `rows_generator` applies). -/
def valid_children (children : List ChildElem) (column_limit : Option Nat) :
    List ChildElem :=
  children.filter (fun e =>
    e.row.isSome && e.column.isSome
      && (match column_limit with
          | some l => decide (e.column.getD 0 < l)
          | none => true))

/-- The emission keys of `__rows_generator`: distinct row values of the
surviving children, ascending. -/
def row_keys (valid : List ChildElem) : List Nat :=
  ((valid.map (fun e => e.row.getD 0)).dedup).mergeSort (· ≤ ·)

/-- The cell list `__rows_generator` emits for one row key: the
truthy-text children of that row, sorted by column and truncated to the
limit (the same bucket `rows_generator` builds). -/
def row_bucket (valid : List ChildElem) (column_limit : Option Nat) (r : Nat) :
    List ChildElem :=
  let cells := (valid.filter (fun e => e.row.getD 0 = r)).filter
    (fun e => !falsyText e.text)
  let sorted := cells.mergeSort (fun a b => a.column.getD 0 ≤ b.column.getD 0)
  match column_limit with
  | some l => sorted.take l
  | none => sorted

theorem rows_generator_eq (children : List ChildElem) (column_limit : Option Nat)
    (remove_empty_rows : Bool) :
    rows_generator children column_limit remove_empty_rows
      = (if remove_empty_rows then
          ((row_keys (valid_children children column_limit)).map
            (row_bucket (valid_children children column_limit) column_limit)).filter
            (fun r => !r.isEmpty)
        else
          (row_keys (valid_children children column_limit)).map
            (row_bucket (valid_children children column_limit) column_limit)) :=
  rfl

/-- A cell yielded by `Element.each_row`, tagged by the variant that
produced it. -/
inductive RowCell where
  | table (c : TableCell)
  | grid (c : GVCell)
  | tree (c : TTCell)
  | child (c : ChildElem)
  deriving DecidableEq, Repr

/-- The data of one tabular control as consulted by `Element.each_row`:
its displayed text and type plus the per-variant COM data. -/
structure Ctrl where
  text : String
  type : String
  grid : GridData
  tree : TreeData
  table : TableData
  children : List ChildElem

/-- `Element.each_row(column_limit, return_empty_rows)` (element.py
439-509): an `if/elif/elif` chain picks the grid-view variant when
`'GridViewCtrl' in element_text`, else the tree variant when
`'TableTreeCtrl' in element_text`, else the plain-table variant when
`'GuiTableControl' in element_type`; the final
`yield from self.__rows_generator(...)` sits OUTSIDE that chain, so the
fallback rows are appended unconditionally, with
`remove_empty_rows = not return_empty_rows`. -/
def element_each_row (c : Ctrl) (column_limit : Option Nat)
    (return_empty_rows : Bool) : List (List RowCell) :=
  (if strContains c.text "GridViewCtrl" then
    (gridview_each_row c.grid column_limit return_empty_rows).map
      (fun r => r.map RowCell.grid)
  else if strContains c.text "TableTreeCtrl" then
    (tabletree_each_row c.tree column_limit return_empty_rows).map
      (fun r => r.map RowCell.tree)
  else if strContains c.type "GuiTableControl" then
    (each_table_row c.table column_limit return_empty_rows).map
      (fun r => r.map RowCell.table)
  else [])
  ++ (rows_generator c.children column_limit (!return_empty_rows)).map
      (fun r => r.map RowCell.child)

theorem filterMap_some_eq_map {α β : Type} (l : List α) (f : α → β) :
    l.filterMap (fun a => some (f a)) = l.map f := by
  induction l with
  | nil => rfl
  | cons a l ih => simp [ih]

theorem filterMap_if_eq_filter_map {α β : Type} (l : List α) (f : α → β) (q : β → Bool) :
    l.filterMap (fun a => if q (f a) then none else some (f a))
      = (l.map f).filter (fun r => !q r) := by
  induction l with
  | nil => rfl
  | cons a l ih =>
    simp only [List.filterMap_cons, List.map_cons, List.filter_cons]
    cases hq : q (f a) <;> simp [hq, ih]

theorem table_rows_go_false (tb : TableData) (cc : Nat) :
    ∀ rows : List Nat,
    table_rows_go tb cc false rows
      = (rows.map (table_row_cells tb cc)).filter
          (fun r => !(r.all (fun c => c.text = "")))
  | [] => rfl
  | row :: rest => by
    rw [table_rows_go]
    by_cases h : (table_row_cells tb cc row).all (fun c => c.text = "")
    · simp [h, table_rows_go_false tb cc rest]
    · have hne : (table_row_cells tb cc row).isEmpty = false := by
        cases he : table_row_cells tb cc row with
        | nil => rw [he] at h; simp at h
        | cons a l => simp
      simp [h, hne, table_rows_go_false tb cc rest]

theorem table_rows_go_true_takeWhile (tb : TableData) (cc : Nat) :
    ∀ rows : List Nat,
    table_rows_go tb cc true rows
      = (rows.map (table_row_cells tb cc)).takeWhile (fun r => !r.isEmpty)
  | [] => rfl
  | row :: rest => by
    rw [table_rows_go]
    by_cases h : (table_row_cells tb cc row).isEmpty
    · simp [h]
    · simp [h, table_rows_go_true_takeWhile tb cc rest]

theorem row_bucket_isEmpty_iff (valid : List ChildElem) (r : Nat) :
    (row_bucket valid none r).isEmpty = true
      ↔ ∀ e ∈ valid, e.row.getD 0 = r → falsyText e.text = true := by
  rw [row_bucket]
  rw [List.isEmpty_iff]
  constructor
  · intro h e he hr
    by_contra hf
    have hmem : e ∈ (valid.filter (fun e => e.row.getD 0 = r)).filter
        (fun e => !falsyText e.text) := by
      simp [List.mem_filter, he, hr, hf]
    have hperm := List.mergeSort_perm
      ((valid.filter (fun e => e.row.getD 0 = r)).filter (fun e => !falsyText e.text))
      (fun a b => a.column.getD 0 ≤ b.column.getD 0)
    have : e ∈ ([] : List ChildElem) := by
      rw [← h]
      exact hperm.mem_iff.2 hmem
    cases this
  · intro h
    have hnil : (valid.filter (fun e => e.row.getD 0 = r)).filter
        (fun e => !falsyText e.text) = [] := by
      rw [List.filter_eq_nil_iff]
      intro e he
      rw [List.mem_filter] at he
      simp only [Bool.not_eq_true', Bool.not_eq_false]
      exact h e he.1 (by simpa using he.2)
    rw [hnil]
    simp

/-- Counterexample to C4 as stated: two of the four variants do not use
the empty-or-whitespace test.  The plain-table variant
(`Element.each_table_row`) tests cell text with `== ''`, not with
`.strip()`, so with `return_empty_rows = False` a row whose single cell
text is the whitespace-only string `" "` — blank by the grid/tree
variants' own test — is still yielded rather than omitted; the fallback
variant (`__rows_generator`, here with `remove_empty_rows = True`, the
flag `each_row` passes for `return_empty_rows = False`) keeps the same
whitespace-only row, since its `getattr(element, "text", None)`
truthiness test treats `" "` as truthy. -/
theorem each_table_row_keeps_whitespace_row :
    (" " ≠ "" ∧ blankOpt (some " ") = true)
    ∧ each_table_row
        { rowsCount := 1, columnsCount := 1,
          cell := fun _ _ => some " ", columnTitleAt := fun _ => none }
        none false
      = [[TableCell.mk 0 0 " " none]]
    ∧ rows_generator [ChildElem.mk (some 0) (some 0) (some " ")] none true
      = [[ChildElem.mk (some 0) (some 0) (some " ")]] := by
  refine ⟨⟨by decide, by decide⟩, ?_, ?_⟩
  · simp [each_table_row, table_columns_count, table_rows_go, table_row_cells,
      List.range_succ]
  · simp [rows_generator, falsyText, List.mergeSort, List.dedup]

/-- Claim C4 (amended): with `return_empty_rows = False` each variant
omits exactly the rows whose every cell text is blank — blank meaning
empty-or-whitespace-only (`blankOpt`) for the grid-view and tree-table
variants, but exactly the empty string for the plain-table variant and
falsy text (missing or empty) for the fallback variant, so those two
yield whitespace-only rows; with `return_empty_rows = True` such rows
are included: the grid-view and tree-table variants yield every row,
the plain-table variant applies no blank filtering (it yields the
per-row cell lists up to the first row with no readable cells, where
its iteration breaks), and the fallback — which drops falsy-text cells
unconditionally — yields an all-empty-text row as an empty cell list
(for the fallback, `each_row` passes
`remove_empty_rows = not return_empty_rows`). -/
theorem each_row_blank_row_policy (g : GridData) (t : TreeData) (tb : TableData)
    (ch : List ChildElem) (column_limit : Option Nat) :
    (gridview_each_row g column_limit false
      = (gridview_each_row g column_limit true).filter
          (fun r => !(r.all (fun cell => blankOpt (g.cellValue cell.row cell.col)))))
    ∧ (gridview_each_row g column_limit true
      = (List.range g.rowCount).map
          (grid_row_cells g (grid_columns_count g column_limit)))
    ∧ (tabletree_each_row t column_limit false
      = (tabletree_each_row t column_limit true).filter
          (fun r => !(r.all (fun cell => blankOpt (t.itemText cell.row cell.col)))))
    ∧ (tabletree_each_row t column_limit true
      = t.nodeKeys.map (tree_row_cells (tree_column_names t column_limit)))
    ∧ (each_table_row tb column_limit false
      = ((List.range tb.rowsCount).map
          (table_row_cells tb (table_columns_count tb column_limit))).filter
          (fun r => !(r.all (fun c => c.text = ""))))
    ∧ (each_table_row tb column_limit true
      = ((List.range tb.rowsCount).map
          (table_row_cells tb (table_columns_count tb column_limit))).takeWhile
          (fun r => !r.isEmpty))
    ∧ (rows_generator ch column_limit true
      = (rows_generator ch column_limit false).filter (fun r => !r.isEmpty))
    ∧ (∀ r, (row_bucket (valid_children ch none) none r).isEmpty = true
        ↔ ∀ e ∈ valid_children ch none, e.row.getD 0 = r →
            falsyText e.text = true) := by
  have hg2 : gridview_each_row g column_limit true
      = (List.range g.rowCount).map
          (grid_row_cells g (grid_columns_count g column_limit)) := by
    simp only [gridview_each_row, Bool.not_true, Bool.false_and,
      Bool.false_eq_true, if_false]
    exact filterMap_some_eq_map _ _
  have ht2 : tabletree_each_row t column_limit true
      = t.nodeKeys.map (tree_row_cells (tree_column_names t column_limit)) := by
    simp only [tabletree_each_row, Bool.not_true, Bool.false_and,
      Bool.false_eq_true, if_false]
    exact filterMap_some_eq_map _ _
  refine ⟨?_, hg2, ?_, ht2, ?_, ?_, ?_, ?_⟩
  · rw [hg2]
    simp only [gridview_each_row, Bool.not_false, Bool.true_and]
    exact filterMap_if_eq_filter_map (List.range g.rowCount)
      (grid_row_cells g (grid_columns_count g column_limit))
      (fun r => r.all (fun cell => blankOpt (g.cellValue cell.row cell.col)))
  · rw [ht2]
    simp only [tabletree_each_row, Bool.not_false, Bool.true_and]
    exact filterMap_if_eq_filter_map t.nodeKeys
      (tree_row_cells (tree_column_names t column_limit))
      (fun r => r.all (fun cell => blankOpt (t.itemText cell.row cell.col)))
  · exact table_rows_go_false tb (table_columns_count tb column_limit) _
  · exact table_rows_go_true_takeWhile tb (table_columns_count tb column_limit) _
  · rw [rows_generator_eq, rows_generator_eq]
    simp
  · exact fun r => row_bucket_isEmpty_iff (valid_children ch none) r

/-- Witness for the amended C4: a whitespace-only table row is yielded
unfiltered in true mode; a single empty-text child gives the fallback
one row key whose bucket is empty — omitted with
`remove_empty_rows = True` and emitted as an empty cell list otherwise. -/
theorem each_row_blank_row_policy_witness :
    each_table_row
        { rowsCount := 1, columnsCount := 1,
          cell := fun _ _ => some " ", columnTitleAt := fun _ => none }
        none true
      = [[TableCell.mk 0 0 " " none]]
    ∧ rows_generator [ChildElem.mk (some 0) (some 0) (some "")] none true = []
    ∧ rows_generator [ChildElem.mk (some 0) (some 0) (some "")] none false = [[]]
    ∧ (row_bucket
        (valid_children [ChildElem.mk (some 0) (some 0) (some "")] none)
        none 0).isEmpty = true := by
  have h := each_row_blank_row_policy
    { rowCount := 0, columnCount := 0, columnOrder := fun _ => "",
      cellValue := fun _ _ => none }
    { columnNames := [], nodeKeys := [], itemText := fun _ _ => none }
    { rowsCount := 1, columnsCount := 1,
      cell := fun _ _ => some " ", columnTitleAt := fun _ => none }
    [ChildElem.mk (some 0) (some 0) (some "")] none
  refine ⟨?_, ?_, ?_, ?_⟩
  · rw [h.2.2.2.2.2.1]
    simp [table_row_cells, table_columns_count, List.range_succ]
  · rw [h.2.2.2.2.2.2.1]
    simp [rows_generator, falsyText, List.mergeSort, List.dedup]
  · simp [rows_generator, falsyText, List.mergeSort, List.dedup]
  · exact (h.2.2.2.2.2.2.2 0).2 (by
      intro e he hr
      simp [valid_children] at he
      subst he
      rfl)

/-- Claim C3: when a tabular control's text or type matches one of the
specialized markers (`GridViewCtrl`, `TableTreeCtrl`, `GuiTableControl`),
`Element.each_row` yields the specialized variant's rows and then
additionally the generic fallback generator's rows — the fallback is not
mutually exclusive with the matched specialized variant, because the
final `yield from __rows_generator` sits outside the `if/elif` chain. -/
theorem each_row_fallback_always_appended (c : Ctrl) (column_limit : Option Nat)
    (return_empty_rows : Bool) :
    (strContains c.text "GridViewCtrl" = true →
      element_each_row c column_limit return_empty_rows
        = (gridview_each_row c.grid column_limit return_empty_rows).map
            (fun r => r.map RowCell.grid)
          ++ (rows_generator c.children column_limit (!return_empty_rows)).map
            (fun r => r.map RowCell.child))
    ∧ (strContains c.text "GridViewCtrl" = false →
       strContains c.text "TableTreeCtrl" = true →
      element_each_row c column_limit return_empty_rows
        = (tabletree_each_row c.tree column_limit return_empty_rows).map
            (fun r => r.map RowCell.tree)
          ++ (rows_generator c.children column_limit (!return_empty_rows)).map
            (fun r => r.map RowCell.child))
    ∧ (strContains c.text "GridViewCtrl" = false →
       strContains c.text "TableTreeCtrl" = false →
       strContains c.type "GuiTableControl" = true →
      element_each_row c column_limit return_empty_rows
        = (each_table_row c.table column_limit return_empty_rows).map
            (fun r => r.map RowCell.table)
          ++ (rows_generator c.children column_limit (!return_empty_rows)).map
            (fun r => r.map RowCell.child)) := by
  refine ⟨?_, ?_, ?_⟩
  · intro h1
    simp [element_each_row, h1]
  · intro h1 h2
    simp [element_each_row, h1, h2]
  · intro h1 h2 h3
    simp [element_each_row, h1, h2, h3]

/-- Example grid-view control with one grid cell and one fallback child,
so that both the specialized rows and the fallback rows are nonempty. -/
def wGridCtrl : Ctrl :=
  { text := "GridViewCtrl"
    type := "GuiShell"
    grid := { rowCount := 1, columnCount := 1,
              columnOrder := fun _ => "A",
              cellValue := fun _ _ => some "g" }
    tree := { columnNames := [], nodeKeys := [], itemText := fun _ _ => none }
    table := { rowsCount := 0, columnsCount := 0,
               cell := fun _ _ => none, columnTitleAt := fun _ => none }
    children := [ChildElem.mk (some 0) (some 0) (some "f")] }

/-- Witness for C3: on a `GridViewCtrl` control, `each_row` yields the
grid row and then additionally the fallback child row. -/
theorem each_row_fallback_always_appended_witness :
    strContains wGridCtrl.text "GridViewCtrl" = true
    ∧ element_each_row wGridCtrl none true
        = [[RowCell.grid (GVCell.mk 0 "A")],
           [RowCell.child (ChildElem.mk (some 0) (some 0) (some "f"))]] := by
  have h := (each_row_fallback_always_appended wGridCtrl none true).1 (by decide)
  refine ⟨by decide, ?_⟩
  rw [h]
  simp [gridview_each_row, grid_row_cells, grid_columns_count, rows_generator,
    wGridCtrl, blankOpt, falsyText, List.mergeSort, List.dedup, List.range_succ]

/-- Claim C1: for every path of N slash-separated segments and every
control tree, `search_path` produces exactly one candidate list per
segment (N levels); whenever any level's candidate list is empty the
overall result is the empty list, and a nonempty result requires every
one of the N consecutive levels to contribute at least one surviving
candidate — no partial result for a prefix of levels is ever returned. -/
theorem search_path_requires_every_level (m : Matcher) (base : SapElem)
    (re_path : String) (return_all : Bool) :
    ((level_lists m return_all (pySplit '/' re_path) [base]).length
        = (pySplit '/' re_path).length)
    ∧ ([] ∈ level_lists m return_all (pySplit '/' re_path) [base] →
        search_path m base re_path return_all = PyVal.vlist [])
    ∧ (search_path m base re_path return_all ≠ PyVal.vlist [] →
        ∀ l ∈ level_lists m return_all (pySplit '/' re_path) [base], l ≠ []) := by
  refine ⟨level_lists_length m return_all _ _, ?_, ?_⟩
  · intro hmem
    have hnone : search_levels m return_all (pySplit '/' re_path) [base] = none :=
      (search_levels_none_iff m return_all _ _).2 hmem
    simp [search_path, hnone]
  · intro hne l hl hleq
    subst hleq
    have hnone : search_levels m return_all (pySplit '/' re_path) [base] = none :=
      (search_levels_none_iff m return_all _ _).2 hl
    exact hne (by simp [search_path, hnone])

/-- Witness for C1: on `wTree1` the path `a/zzz` has an empty second
level and `search_path` returns the empty list, not the partial
first-level result. -/
theorem search_path_requires_every_level_witness :
    [] ∈ level_lists exactMatcher false (pySplit '/' "a/zzz") [wTree1]
    ∧ search_path exactMatcher wTree1 "a/zzz" false = PyVal.vlist [] :=
  ⟨by rw [wTree1_levels]; simp,
   (search_path_requires_every_level exactMatcher wTree1 "a/zzz" false).2.1
     (by rw [wTree1_levels]; simp)⟩

/-- Claim C2: when the tree offers at least two matches of the final
pattern (over the candidates surviving the earlier levels), first-match
mode (`return_all = False`) returns exactly one result — the first hit
in depth-first traversal order — while all-matches mode
(`return_all = True`) returns every hit at every depth, in traversal
order (`collectMatches` is the preorder traversal specification). -/
theorem search_path_first_vs_all (m : Matcher) (base : SapElem) (re_path : String)
    (ps : List String) (p : String) (C : List SapElem)
    (hsplit : pySplit '/' re_path = ps ++ [p])
    (hpre : search_levels m false ps [base] = some C) :
    search_path m base re_path true
        = PyVal.vlist (C.flatMap (collectMatches m (escape_brackets p)))
    ∧ (∀ x y rest,
        C.flatMap (collectMatches m (escape_brackets p)) = x :: y :: rest →
        search_path m base re_path false = PyVal.velem x) := by
  constructor
  · rw [search_path, hsplit, search_levels_append m true ps p [base], hpre]
    simp only [level_step_all]
    cases hL : C.flatMap (collectMatches m (escape_brackets p)) with
    | nil => simp
    | cons x xs => simp
  · intro x y rest hhits
    rw [search_path, hsplit, search_levels_append m false ps p [base], hpre]
    simp only [level_step_first]
    have hhead :
        (C.filterMap (fun e => (collectMatches m (escape_brackets p) e).head?)).head?
          = some x := by
      rw [head_filterMap_flatMap, hhits]
      rfl
    cases hF : C.filterMap (fun e => (collectMatches m (escape_brackets p) e).head?) with
    | nil => rw [hF] at hhead; simp at hhead
    | cons z zs =>
      rw [hF] at hhead
      simp only [List.head?_cons, Option.some.injEq] at hhead
      subst hhead
      simp

/-- Witness for C2: on `wTree2` the final pattern `b` has two hits at
different depths; all-matches mode returns both in traversal order and
first-match mode returns only the first. -/
theorem search_path_first_vs_all_witness :
    pySplit '/' "a/b" = ["a"] ++ ["b"]
    ∧ search_path exactMatcher wTree2 "a/b" true
        = PyVal.vlist [SapElem.node "b" [], SapElem.node "b" []]
    ∧ search_path exactMatcher wTree2 "a/b" false
        = PyVal.velem (SapElem.node "b" []) := by
  have h := search_path_first_vs_all exactMatcher wTree2 "a/b" ["a"] "b"
    [SapElem.node "a" [SapElem.node "b" [], SapElem.node "c" [SapElem.node "b" []]]]
    (by decide) wTree2_pre
  refine ⟨by decide, ?_, ?_⟩
  · rw [h.1, wTree2_hits]
  · exact h.2 (SapElem.node "b" []) (SapElem.node "b" []) []
      (by rw [wTree2_hits])


/-- Claim C5 evidence (code bug): `is_selected` raises
`SapAttributeNotFoundException("Selected/Checked")` exactly when neither
attribute exists, but `select()` and `toggle_select()` contradict their
own docstrings — the `raise` statement is not in an `else` branch, so on
a control exposing `Selected` they flip/set the boolean once and then
still raise unconditionally, instead of completing without raising. -/
theorem select_raises_despite_attribute :
    (SelCtrl.mk (some false) none).selected.isSome = true
    ∧ select (SelCtrl.mk (some false) none)
        = (SelCtrl.mk (some true) none, some "Selected/Checked")
    ∧ toggle_select (SelCtrl.mk (some false) none)
        = (SelCtrl.mk (some true) none, some "Selected/Checked")
    ∧ toggle_select (SelCtrl.mk (some true) none)
        = (SelCtrl.mk (some false) none, some "Selected/Checked")
    ∧ is_selected (SelCtrl.mk none none) = Except.error "Selected/Checked"
    ∧ is_selected (SelCtrl.mk (some true) none) = Except.ok true := by
  refine ⟨rfl, ?_, ?_, ?_, ?_, ?_⟩ <;> rfl

/-- Claim C6: on a scrollable control, `scroll_to_relative_position`
with direction `down` and `current + amount > max` leaves the position
unchanged and returns `False`, and with `current + amount <= max` sets
the position to `current + amount` and returns `True`; symmetrically for
`up` against the minimum. -/
theorem scroll_to_relative_position_clamps (c : ScrollCtrl) (sb : Scrollbar)
    (a : Int) (h : c.verticalScrollbar = some sb) :
    (sb.maximum < sb.position + a →
      scroll_to_relative_position c ScrollDir.down a = (c, Except.ok false))
    ∧ (sb.position + a ≤ sb.maximum →
      scroll_to_relative_position c ScrollDir.down a
        = ({ verticalScrollbar := some { sb with position := sb.position + a } },
           Except.ok true))
    ∧ (sb.position - a < sb.minimum →
      scroll_to_relative_position c ScrollDir.up a = (c, Except.ok false))
    ∧ (sb.minimum ≤ sb.position - a →
      scroll_to_relative_position c ScrollDir.up a
        = ({ verticalScrollbar := some { sb with position := sb.position - a } },
           Except.ok true)) := by
  refine ⟨?_, ?_, ?_, ?_⟩ <;> intro hb <;>
    simp only [scroll_to_relative_position, h]
  · rw [if_pos hb]
  · rw [if_neg (by omega)]
  · rw [if_pos hb]
  · rw [if_neg (by omega)]

/-- Witness for C6: a scrollbar at position 5 in range 0..10, exercising
all four outcomes. -/
theorem scroll_to_relative_position_clamps_witness :
    scroll_to_relative_position (ScrollCtrl.mk (some (Scrollbar.mk 5 0 10)))
        ScrollDir.down 7
      = (ScrollCtrl.mk (some (Scrollbar.mk 5 0 10)), Except.ok false)
    ∧ scroll_to_relative_position (ScrollCtrl.mk (some (Scrollbar.mk 5 0 10)))
        ScrollDir.down 3
      = (ScrollCtrl.mk (some (Scrollbar.mk 8 0 10)), Except.ok true)
    ∧ scroll_to_relative_position (ScrollCtrl.mk (some (Scrollbar.mk 5 0 10)))
        ScrollDir.up 6
      = (ScrollCtrl.mk (some (Scrollbar.mk 5 0 10)), Except.ok false)
    ∧ scroll_to_relative_position (ScrollCtrl.mk (some (Scrollbar.mk 5 0 10)))
        ScrollDir.up 5
      = (ScrollCtrl.mk (some (Scrollbar.mk 0 0 10)), Except.ok true) :=
  ⟨(scroll_to_relative_position_clamps _ (Scrollbar.mk 5 0 10) 7 rfl).1 (by decide),
   (scroll_to_relative_position_clamps _ (Scrollbar.mk 5 0 10) 3 rfl).2.1 (by decide),
   (scroll_to_relative_position_clamps _ (Scrollbar.mk 5 0 10) 6 rfl).2.2.1 (by decide),
   (scroll_to_relative_position_clamps _ (Scrollbar.mk 5 0 10) 5 rfl).2.2.2 (by decide)⟩

/-- Counterexample to C7 as stated: on identifier suffix `[3,7]` with no
native attributes, the code returns the FIRST number from `get_column`
and the SECOND from `get_row` — the opposite of the claim, which assigns
the first number to `get_row` and the second to `get_column`. -/
theorem get_row_returns_second_number :
    get_column (PosCtrl.mk none none "a[3,7]") = Except.ok 3
    ∧ get_row (PosCtrl.mk none none "a[3,7]") = Except.ok 7
    ∧ get_row (PosCtrl.mk none none "a[3,7]") ≠ Except.ok 3
    ∧ get_column (PosCtrl.mk none none "a[3,7]") ≠ Except.ok 7 := by
  have hc : get_column (PosCtrl.mk none none "a[3,7]") = Except.ok 3 := rfl
  have hr : get_row (PosCtrl.mk none none "a[3,7]") = Except.ok 7 := rfl
  refine ⟨hc, hr, ?_, ?_⟩
  · rw [hr]; simp
  · rw [hc]; simp

/-- Claim C7 (amended): `get_column`/`get_row` return the native
`Column`/`Row` attribute when present; when absent they parse the
trailing `[a,b]`-style suffix of the identifier, `get_column` returning
the first number and `get_row` the second; and they raise
`SapAttributeNotFoundException` when the attribute is absent and the
suffix pattern does not match. -/
theorem get_row_column_fallback (c : PosCtrl) :
    (∀ v, c.columnAttr = some v → get_column c = Except.ok v)
    ∧ (∀ v, c.rowAttr = some v → get_row c = Except.ok v)
    ∧ (c.columnAttr = none → ∀ a b, parseRowColSuffix c.id = some (a, b) →
        get_column c = Except.ok a)
    ∧ (c.rowAttr = none → ∀ a b, parseRowColSuffix c.id = some (a, b) →
        get_row c = Except.ok b)
    ∧ (c.columnAttr = none → parseRowColSuffix c.id = none →
        get_column c = Except.error "Column")
    ∧ (c.rowAttr = none → parseRowColSuffix c.id = none →
        get_row c = Except.error "Row") := by
  refine ⟨?_, ?_, ?_, ?_, ?_, ?_⟩
  · intro v hv; simp [get_column, hv]
  · intro v hv; simp [get_row, hv]
  · intro h a b hp; simp [get_column, h, hp]
  · intro h a b hp; simp [get_row, h, hp]
  · intro h hp; simp [get_column, h, hp]
  · intro h hp; simp [get_row, h, hp]

/-- Witness for the amended C7: native attribute preferred, suffix
fallback used, and failure when neither source applies. -/
theorem get_row_column_fallback_witness :
    get_column (PosCtrl.mk (some 9) none "a[3,7]") = Except.ok 9
    ∧ get_row (PosCtrl.mk none none "a[3,7]") = Except.ok 7
    ∧ get_column (PosCtrl.mk none none "nomatch") = Except.error "Column" :=
  ⟨(get_row_column_fallback (PosCtrl.mk (some 9) none "a[3,7]")).1 9 rfl,
   (get_row_column_fallback (PosCtrl.mk none none "a[3,7]")).2.2.2.1 rfl 3 7 (by decide),
   (get_row_column_fallback (PosCtrl.mk none none "nomatch")).2.2.2.2.1 rfl (by decide)⟩

/-- Claim C8: acquiring a session at a specific index that is busy fails
with `NoSapSessionException` carrying that index; acquiring with no
index returns the first non-busy session in ascending index order, and
fails (carrying no index) when every session is busy or none exist. -/
theorem get_session_selection (sessions : List SessObj) :
    (∀ (n : Nat) (s : SessObj), sessions[n]? = some s → s.busy = true →
      get_session sessions (some (n : Int)) = Except.error (some (n : Int)))
    ∧ (get_session sessions none
        = match sessions.find? (fun s => !s.busy) with
          | some s => Except.ok s
          | none => Except.error none) := by
  constructor
  · intro n s hget hbusy
    have hlt : n < sessions.length := by
      by_contra hge
      rw [List.getElem?_eq_none (by omega)] at hget
      cases hget
    have hlen : sessions.length ≠ 0 := by omega
    simp only [get_session, hlen, if_false]
    rw [if_neg (by omega)]
    rw [show ((n : Int)).toNat = n from rfl]
    rw [hget]
    simp [hbusy]
  · cases sessions with
    | nil => simp [get_session]
    | cons s rest =>
      simp only [get_session]
      rw [if_neg (by simp)]

/-- Witness for C8: a busy session at index 0 makes indexed acquisition
fail with that index, while unindexed acquisition returns the idle
session at index 1. -/
theorem get_session_selection_witness :
    get_session [SessObj.mk 0 true, SessObj.mk 1 false] (some 0)
      = Except.error (some 0)
    ∧ get_session [SessObj.mk 0 true, SessObj.mk 1 false] none
      = Except.ok (SessObj.mk 1 false) := by
  have h := get_session_selection [SessObj.mk 0 true, SessObj.mk 1 false]
  refine ⟨?_, ?_⟩
  · have := h.1 0 (SessObj.mk 0 true) rfl rfl
    simpa using this
  · rw [h.2]
    rfl

/-- Counterexample to C9 as stated: with two running instances,
requesting ordinal index 0 returns the LATEST instance (index 1), not
the instance at index 0, because `if connection_id:` treats 0 as falsy;
and requesting index 2 (equal to the count, hence out of range) passes
the strict `count < id` check and surfaces as a COM-level `Item` error,
not as `NoSapConnectionException`. -/
theorem connection_zero_resolves_latest :
    get_connection [ConnObj.mk 0, ConnObj.mk 1] (some 0) = Except.ok (ConnObj.mk 1)
    ∧ ConnObj.mk 1 ≠ ConnObj.mk 0
    ∧ get_connection [ConnObj.mk 0, ConnObj.mk 1] (some 2)
        = Except.error ConnErr.comError := by
  refine ⟨rfl, by decide, rfl⟩

/-- Claim C9 (amended): with no index — or with index 0, which the
`if connection_id:` truthiness guard treats as absent — `Connection`
resolves the latest instance; with a nonzero index `0 < i < count` it
resolves the instance at index `i`; it fails with
`NoSapConnectionException` when no instances exist (carrying no id) or
when `i < 0` or `i > count` (carrying `i`); and for `i = count` the
strict bounds check passes and the out-of-range access surfaces as the
underlying COM error instead. -/
theorem get_connection_resolution (connections : List ConnObj) :
    ((connections.length = 0) → ∀ cid, get_connection connections cid
        = Except.error (ConnErr.noConnection none))
    ∧ (connections.length ≠ 0 → ∀ s,
        connections[connections.length - 1]? = some s →
        get_connection connections none = Except.ok s
        ∧ get_connection connections (some 0) = Except.ok s)
    ∧ (∀ (i : Nat), 0 < i → ∀ s, connections[i]? = some s →
        get_connection connections (some (i : Int)) = Except.ok s)
    ∧ (∀ (i : Int), connections.length ≠ 0 → i ≠ 0 →
        (i < 0 ∨ (connections.length : Int) < i) →
        get_connection connections (some i)
          = Except.error (ConnErr.noConnection (some i)))
    ∧ (0 < connections.length →
        get_connection connections (some (connections.length : Int))
          = Except.error ConnErr.comError) := by
  refine ⟨?_, ?_, ?_, ?_, ?_⟩
  · intro hlen cid
    simp [get_connection, hlen]
  · intro hlen s hget
    constructor
    · simp only [get_connection, hlen, if_false]
      simp [connections_item, hget]
    · simp only [get_connection, hlen, if_false]
      simp [connections_item, hget]
  · intro i hi s hget
    have hlt : i < connections.length := by
      by_contra hge
      rw [List.getElem?_eq_none (by omega)] at hget
      cases hget
    have hlen : connections.length ≠ 0 := by omega
    simp only [get_connection, hlen, if_false]
    rw [if_pos (by omega)]
    rw [if_neg (by omega)]
    simp [connections_item, Int.toNat_natCast, hget]
  · intro i hlen hi hrange
    simp only [get_connection, hlen, if_false]
    rw [if_pos hi, if_pos hrange]
  · intro hlen
    have hlen0 : connections.length ≠ 0 := by omega
    simp only [get_connection, hlen0, if_false]
    rw [if_pos (by omega)]
    rw [if_neg (by omega)]
    have hnone : connections[((connections.length : Int)).toNat]? = none := by
      rw [Int.toNat_natCast]
      exact List.getElem?_eq_none (by omega)
    simp [connections_item, hnone]

/-- Witness for the amended C9: two instances, exercising the latest,
indexed, out-of-range and empty-list outcomes. -/
theorem get_connection_resolution_witness :
    get_connection [ConnObj.mk 0, ConnObj.mk 1] none = Except.ok (ConnObj.mk 1)
    ∧ get_connection [ConnObj.mk 0, ConnObj.mk 1] (some 1) = Except.ok (ConnObj.mk 1)
    ∧ get_connection [ConnObj.mk 0, ConnObj.mk 1] (some 3)
        = Except.error (ConnErr.noConnection (some 3))
    ∧ get_connection ([] : List ConnObj) (some 5)
        = Except.error (ConnErr.noConnection none) :=
  ⟨((get_connection_resolution [ConnObj.mk 0, ConnObj.mk 1]).2.1 (by decide)
      (ConnObj.mk 1) rfl).1,
   (get_connection_resolution [ConnObj.mk 0, ConnObj.mk 1]).2.2.1 1 (by decide)
      (ConnObj.mk 1) rfl,
   (get_connection_resolution [ConnObj.mk 0, ConnObj.mk 1]).2.2.2.1 3 (by decide)
      (by decide) (by decide),
   (get_connection_resolution ([] : List ConnObj)).1 rfl (some 5)⟩

/-- Claim C10: `get_column_title` raises `SapAttributeNotFoundException`
even when a column title has previously been stored via
`set_column_title`, because the guard tests the never-assigned private
name `__title` (mangled `_Element__title`), whose failed lookup is
forwarded and raises before the stored `__column_title` could be read. -/
theorem get_column_title_never_sees_stored (c : TitleCtrl) (t : String)
    (h : c.elemTitleAttr = none) :
    get_column_title (set_column_title c t) = Except.error "_Element__title" := by
  simp [get_column_title, set_column_title, h]

/-- Witness for C10: storing a title and then reading it back still
raises. -/
theorem get_column_title_never_sees_stored_witness :
    (TitleCtrl.mk none none).elemTitleAttr = none
    ∧ get_column_title (set_column_title (TitleCtrl.mk none none) "Stored")
        = Except.error "_Element__title" :=
  ⟨rfl, get_column_title_never_sees_stored (TitleCtrl.mk none none) "Stored" rfl⟩

end PySapGui
